import Mathlib

/-!
Shallow embedding of `src/lib/Moonstone.js` (the Moonstone dogehouse client).

The embedding models the connection/session engine of the client: the
pending-request table (`waitForRef`, the post-dispatch reply-resolution block
of `wsEvent`), the packet dispatcher (`wsEvent`'s op-code switch), the room /
user state mirror, the heartbeat protocol, and the connection manager
(`connect`, `disconnect`, the close handler and the reconnect backoff).

Modelling conventions:
* JS objects with optional / possibly-undefined fields become structures with
  `Option` fields; JS field-presence ("truthiness") tests become `isSome`.
* Timer handles (`setTimeout` / `setInterval` return values) are natural
  numbers; the set of scheduled, not-yet-cleared request timers is an explicit
  list.  A timer callback closure captures its error continuation, so a
  scheduled timer is a pair (timer id, error-continuation id).
* Continuations are identified by numeric ids; invoking one is recorded as an
  output `Event` rather than executed.
* A JS exception (`throw`, or a TypeError from dereferencing `undefined`)
  aborts the current callback: outputs carry a `crashed` field and the
  mutations performed before the throw are kept, as in JS.
* `Constants.js` (the op-code string table) is not part of the source tree,
  so op codes are an inductive type with one constructor per handled case and
  `other s` for the raw-string default case.
-/

namespace Moonstone

/-- Per-user voice flags, as held in `ActiveUser.voiceState`. -/
structure VoiceFlags where
  speaking : Bool
  muted : Bool
  deafened : Bool
deriving DecidableEq, Repr

/-- One registration in the pending-request table: the JS array
`[callback, errCallback, timerHandle]` pushed by `waitForRef`, with the two
continuations named by ids. -/
structure CBEntry where
  sid : Nat
  eid : Nat
  tid : Nat
deriving DecidableEq, Repr

/-- A member of an `ActiveRoom`'s user collection (`ActiveUser`): identity,
voice state, and the room permissions the dispatcher touches. -/
structure RoomUser where
  id : String
  voiceState : VoiceFlags
  handRaised : Bool
  isSpeaker : Bool
  isMod : Bool
  askedToSpeak : Bool
deriving DecidableEq, Repr

/-- A room known to the mirror.  `creatorId` is optional because the
`NEW_CREATOR` handler assigns `packet.d.userId` to it unchecked.
`audioConnection` abstracts the presence of an external voice connection
object; `selfIsSpeaker` abstracts `room.selfUser.roomPermissions.isSpeaker`. -/
structure RoomEntry where
  id : String
  creatorId : Option String
  users : List RoomUser
  selfIsSpeaker : Bool
  audioConnection : Bool
deriving DecidableEq, Repr

/-- WebSocket ready states. -/
inductive ReadyState
  | connecting
  | opened
  | closing
  | closed
deriving DecidableEq, Repr

/-- The socket object, reduced to the field the client reads. -/
structure Socket where
  readyState : ReadyState
deriving DecidableEq, Repr

/-- The measured round-trip latency: `reset()` sets it to `Infinity`. -/
inductive Latency
  | infinity
  | ms (n : Int)
deriving DecidableEq, Repr

/-- Recognized client options (constructor defaults from the source). -/
structure Options where
  autoReconnect : Bool
  connectionTimeout : Nat
  callbackTimeout : Nat
  logUnhandledPackets : Bool
  pingIntervalMs : Nat
deriving DecidableEq, Repr

/-- The observable outputs of the client: emitted events and continuation
invocations. -/
inductive ErrReason
  | timedOut
  | serverErr
deriving DecidableEq, Repr

inductive Event
  | errorEmitted (msg : String)
  | warn (msg : String)
  | debug (msg : String)
  | disconnected (err : Option String)
  | ready (selfId : Option String)
  | newTokens
  | joinedRoom (roomId : String)
  | userJoinRoom (roomId userId : String)
  | userLeftRoom (roomId userId : String)
  | activeSpeakerChange (userId : String)
  | muteChange (userId : String)
  | deafenChange (userId : String)
  | newChatMsg
  | msgDeleted (messageId : String)
  | joinedAsPeer (roomId : String)
  | joinedAsSpeaker (roomId : String)
  | becameSpeaker (roomId : String)
  | handRaised (userId : String)
  | speakerAdded (userId : String)
  | speakerRemoved (userId : String)
  | leftRoom (roomId : String) (kicked : Bool)
  | modChange (userId : String)
  | custom (opCode : String)
  | cbSuccess (sid : Nat)
  | cbError (eid : Nat) (reason : ErrReason)
  | pingSent
deriving DecidableEq, Repr

/-- A JS exception escaping the current callback. -/
inductive JSErr
  | typeError
  | thrown (msg : String)
deriving DecidableEq, Repr

/-- Operation codes of the dispatcher's switch.  `Constants.js` is not in the
source tree; the concrete strings are irrelevant to the dispatch structure, so
each handled code is a constructor and unhandled codes keep their raw string. -/
inductive Op
  | authReply
  | newTokens
  | fetchDone
  | userJoinRoom
  | userLeftRoom
  | activeSpeakerChange
  | muteChanged
  | deafenChanged
  | newChatMsg
  | msgDeleted
  | joinedPeer
  | joinedSpeaker
  | nowSpeaker
  | handRaised
  | speakerAdded
  | speakerRemoved
  | leftRoom
  | modChanged
  | newCreator
  | other (code : String)
deriving DecidableEq, Repr

/-- The fields of `packet.d` read by the dispatcher.  `user` and `room` carry
just the ids the handlers need; `delta` is the possibly-partial voice-state
observation map consumed by `_updateVoiceStates`. -/
structure PacketData where
  roomId : Option String
  userId : Option String
  user : Option String
  messageId : Option String
  deleterId : Option String
  value : Bool
  isMod : Bool
  kicked : Bool
  accessToken : Option String
  refreshToken : Option String
  room : Option String
  activeSpeakerMap : Bool
  delta : List (String × VoiceFlags)
  recvTransportOptions : Option String
  sendTransportOptions : Option String
  routerRtpCapabilities : Option String
deriving DecidableEq, Repr

/-- An inbound JSON envelope.  `p` doubles as the auth-reply payload (the self
user id) and as the envelope-A success payload; presence of `e`, `p`, `d`
models JS truthiness of those fields. -/
structure Packet where
  op : Op
  d : Option PacketData
  p : Option String
  ref : Option String
  fetchId : Option String
  e : Option String
deriving DecidableEq, Repr

/-- The client's mutable state: the session fields of the `Moonstone` class
that the modelled methods read or write. -/
structure ClientState where
  ws : Option Socket
  tokenRaw : Option String
  accessToken : Option String
  refreshToken : Option String
  opts : Options
  callbacks : List (String × List CBEntry)
  activeTimers : List (Nat × Nat)
  rooms : List RoomEntry
  currentRoom : Option String
  selfUserId : Option String
  connecting : Bool
  ready : Bool
  lastPingAck : Bool
  lastPingSent : Option Nat
  lastPingReceived : Option Nat
  latency : Latency
  reconnectInterval : Nat
  connectAttempts : Nat
  pingTimerActive : Bool
  voiceRecv : Option String
  voiceSend : Option String
  voiceRouter : Option String
deriving DecidableEq, Repr

/-- Default options, from the constructor. -/
def defaultOptions : Options where
  autoReconnect := true
  connectionTimeout := 30000
  callbackTimeout := 2000
  logUnhandledPackets := false
  pingIntervalMs := 8000

/-- `reset()`: clears the transient session fields. -/
def resetState (s : ClientState) : ClientState :=
  { s with
    connecting := false
    ready := false
    lastPingAck := true
    voiceRecv := none
    voiceSend := none
    voiceRouter := none
    callbacks := []
    lastPingReceived := none
    lastPingSent := none
    latency := Latency.infinity }

/-- `hardReset()`: full reset, including the backoff state and the socket. -/
def hardResetState (s : ClientState) : ClientState :=
  { resetState s with
    reconnectInterval := 1000
    connectAttempts := 0
    ws := none
    pingTimerActive := false }

/-- The state of a freshly constructed client with the given tokens. -/
def initialState (tokenRaw accessToken refreshToken : Option String)
    (opts : Options) : ClientState :=
  hardResetState
    { ws := none
      tokenRaw := tokenRaw
      accessToken := accessToken
      refreshToken := refreshToken
      opts := opts
      callbacks := []
      activeTimers := []
      rooms := []
      currentRoom := none
      selfUserId := none
      connecting := false
      ready := false
      lastPingAck := true
      lastPingSent := none
      lastPingReceived := none
      latency := Latency.infinity
      reconnectInterval := 1000
      connectAttempts := 0
      pingTimerActive := false
      voiceRecv := none
      voiceSend := none
      voiceRouter := none }

/-! ### Collections

`utils/Collection.js` is not in the source tree.  Modelled from the spec:
a `Collection` is a map keyed by the entity's `id`; `add` supersedes an entry
with the same id ("a later JOIN supersedes a Room entry with the same id"),
`get` returns the entry or nothing, `remove(obj)` deletes by `obj.id` (and so
throws a TypeError when `obj` is `undefined`). -/

/-- `this.rooms.get(roomId)`. -/
def roomsGet : List RoomEntry → String → Option RoomEntry
  | [], _ => none
  | r :: rs, rid => if r.id = rid then some r else roomsGet rs rid

/-- `this.rooms.add(room)`: supersede by id, else append. -/
def roomsAdd (rooms : List RoomEntry) (r : RoomEntry) : List RoomEntry :=
  if rooms.any (fun x => x.id = r.id) then
    rooms.map (fun x => if x.id = r.id then r else x)
  else rooms ++ [r]

/-- Write back a mutation of a room object held in the collection. -/
def setRoom (rooms : List RoomEntry) (r : RoomEntry) : List RoomEntry :=
  rooms.map (fun x => if x.id = r.id then r else x)

/-- `room.users.get(userId)`. -/
def findUser : List RoomUser → String → Option RoomUser
  | [], _ => none
  | u :: us, uid => if u.id = uid then some u else findUser us uid

/-- `room.users.add(user)`. -/
def usersAdd (users : List RoomUser) (u : RoomUser) : List RoomUser :=
  if users.any (fun x => x.id = u.id) then
    users.map (fun x => if x.id = u.id then u else x)
  else users ++ [u]

/-- `room.users.remove(user)` after a successful `get`. -/
def usersRemove (users : List RoomUser) (uid : String) : List RoomUser :=
  users.filter (fun u => u.id ≠ uid)

/-- Write back a mutation of one user object. -/
def setUser (users : List RoomUser) (u : RoomUser) : List RoomUser :=
  users.map (fun x => if x.id = u.id then u else x)

/-- Update one user's voice state in place. -/
def setUserVoice (users : List RoomUser) (uid : String) (obs : VoiceFlags) :
    List RoomUser :=
  users.map (fun u => if u.id = uid then { u with voiceState := obs } else u)

/-! ### Voice-State Reconciler

`core/ActiveRoom.js` (`room._updateVoiceStates`) is not in the source tree.
Modelled from the spec: "for each user id present in the delta, compare
against the Mirror's current voice-state for that user; update the Mirror;
accumulate the user into the speaking-changed list only if the speaking flag
differs from before, likewise independently for mute changed and deafen
changed.  Users not present in the delta are left untouched.  Returns the
three lists (order = delta order)."  A delta entry for a user the mirror does
not hold has no current voice-state to compare against and is skipped. -/

/-- Result of applying one voice-state delta. -/
structure DeltaResult where
  users : List RoomUser
  speakingChanged : List String
  muteChanged : List String
  deafenChanged : List String
deriving DecidableEq, Repr

/-- Modelled from the spec: `ActiveRoom._updateVoiceStates` (the Voice-State
Reconciler of spec section 4.4), absent from the source tree. -/
def applyDelta : List RoomUser → List (String × VoiceFlags) → DeltaResult
  | users, [] => ⟨users, [], [], []⟩
  | users, (uid, obs) :: rest =>
    match findUser users uid with
    | none => applyDelta users rest
    | some u =>
      let r := applyDelta (setUserVoice users uid obs) rest
      ⟨r.users,
        (if u.voiceState.speaking ≠ obs.speaking then [uid] else []) ++
          r.speakingChanged,
        (if u.voiceState.muted ≠ obs.muted then [uid] else []) ++ r.muteChanged,
        (if u.voiceState.deafened ≠ obs.deafened then [uid] else []) ++
          r.deafenChanged⟩

/-- The changed-user list of `applyDelta` for one flag projection, factored
out so the three lists can be reasoned about uniformly. -/
def changedList (f : VoiceFlags → Bool) :
    List RoomUser → List (String × VoiceFlags) → List String
  | _, [] => []
  | users, (uid, obs) :: rest =>
    match findUser users uid with
    | none => changedList f users rest
    | some u =>
      (if f u.voiceState ≠ f obs then [uid] else []) ++
        changedList f (setUserVoice users uid obs) rest

/-! ### Pending-Request Table -/

/-- Look up `this.callbacks[ref]` (the table is keyed by uuid strings). -/
def cbLookup : List (String × List CBEntry) → String → Option (List CBEntry)
  | [], _ => none
  | p :: ps, ref => if p.1 = ref then some p.2 else cbLookup ps ref

/-- Store a (possibly grown) registration list under `ref`. -/
def cbStore (cbs : List (String × List CBEntry)) (ref : String)
    (l : List CBEntry) : List (String × List CBEntry) :=
  if cbs.any (fun p => p.1 = ref) then
    cbs.map (fun p => if p.1 = ref then (ref, l) else p)
  else cbs ++ [(ref, l)]

/-- `waitForRef(ref, callback, errCallback)`: push the continuation pair onto
`this.callbacks[ref]` (creating the slot), and schedule the timeout timer
whose closure invokes the error continuation. -/
def waitForRef (s : ClientState) (ref : String) (sid eid tid : Nat) :
    ClientState :=
  let cur := (cbLookup s.callbacks ref).getD []
  { s with
    callbacks := cbStore s.callbacks ref (cur ++ [⟨sid, eid, tid⟩])
    activeTimers := s.activeTimers ++ [(tid, eid)] }

/-- A scheduled `setTimeout` firing.  The closure captures `errCallback`; it
fires iff the timer was not cleared, invokes that error continuation with the
timeout condition, and consumes the timer.  It does not consult or modify the
callbacks table. -/
def timerFire (s : ClientState) (tid : Nat) : ClientState × List Event :=
  match s.activeTimers.find? (fun te => te.1 = tid) with
  | some te =>
    ({ s with activeTimers := s.activeTimers.filter (fun x => x.1 ≠ tid) },
      [Event.cbError te.2 ErrReason.timedOut])
  | none => (s, [])

/-- One reply-resolution block: when the table holds the key, invoke every
error continuation if the reply has an `e` field, invoke every success
continuation if it has the success payload, then clear every registration's
timer.  The table entry itself is not removed. -/
def resolveStep (cbs : List (String × List CBEntry)) (timers : List (Nat × Nat))
    (key : Option String) (hasE success : Bool) : List (Nat × Nat) × List Event :=
  match key with
  | none => (timers, [])
  | some r =>
    match cbLookup cbs r with
    | none => (timers, [])
    | some l =>
      (timers.filter (fun te => l.all (fun f => f.tid ≠ te.1)),
        (if hasE then l.map (fun f => Event.cbError f.eid ErrReason.serverErr)
          else []) ++
          (if success then l.map (fun f => Event.cbSuccess f.sid) else []))

/-- The two reply-resolution blocks at the end of `wsEvent` (source lines
521-532): the envelope-A block keyed by `packet.ref` with success payload
`packet.p`, then the envelope-B block keyed by `packet.fetchId` with success
payload `packet.d`. -/
def resolveRef (s : ClientState) (pk : Packet) : ClientState × List Event :=
  let r1 := resolveStep s.callbacks s.activeTimers pk.ref pk.e.isSome pk.p.isSome
  let r2 := resolveStep s.callbacks r1.1 pk.fetchId pk.e.isSome pk.d.isSome
  ({ s with activeTimers := r2.1 }, r1.2 ++ r2.2)

/-! ### Packet Dispatcher -/

/-- Output of a dispatcher handler (or of `wsEvent` as a whole): the state,
the emitted events, whether a JS exception escaped, and whether the handler
executed a `return` statement (which exits `wsEvent` before the
reply-resolution blocks). -/
structure HOut where
  state : ClientState
  events : List Event
  crashed : Option JSErr
  earlyReturn : Bool
deriving DecidableEq, Repr

/-- Normal handler completion. -/
def hOk (s : ClientState) (ev : List Event) : HOut := ⟨s, ev, none, false⟩

/-- A JS exception escaping the handler; mutations made before the throw are
kept in `s`. -/
def hCrash (s : ClientState) (err : JSErr) : HOut := ⟨s, [], some err, false⟩

/-- Modelled from the spec: the `ActiveUser` constructor (core/ActiveUser.js,
absent from the source tree): user identity with default voice state and room
permissions. -/
def activeUserOfData (uid : String) : RoomUser :=
  { id := uid
    voiceState := ⟨false, false, false⟩
    handRaised := false
    isSpeaker := false
    isMod := false
    askedToSpeak := false }

/-- Modelled from the spec: the `ActiveRoom` constructor (core/ActiveRoom.js,
absent from the source tree): a room entry built from the payload's room
object, owning a user collection and the self-user's permission state. -/
def activeRoomOfData (d : PacketData) : RoomEntry :=
  { id := d.room.getD ""
    creatorId := none
    users := []
    selfIsSpeaker := false
    audioConnection := false }

/-- `if (packet.d.f) this.voiceDataCache.f = packet.d.f` -/
def updOpt (newv old : Option String) : Option String :=
  match newv with
  | some v => some v
  | none => old

/-- `packet.op.startsWith("@")`: the reserved marker is the single character
`@`, so this is a first-character test. -/
def isCustomOp (c : String) : Bool :=
  match c.data with
  | [] => false
  | ch :: _ => ch = '@'

/-- The op-code switch of `wsEvent` (source lines 206-520), one case per
handled code.  Each case accesses `packet.d`; a packet without `d` makes the
first such access throw. -/
def handleOp (s : ClientState) (pk : Packet) : HOut :=
  match pk.op with
  | Op.authReply =>
    hOk { s with
          connectAttempts := 0
          reconnectInterval := 1000
          connecting := false
          ready := true
          selfUserId := pk.p
          lastPingAck := true
          pingTimerActive := true }
      [Event.ready pk.p]
  | Op.newTokens =>
    match pk.d with
    | none => hCrash s JSErr.typeError
    | some d =>
      let s1 := if d.accessToken.isSome && d.refreshToken.isSome then
          { s with accessToken := d.accessToken, refreshToken := d.refreshToken }
        else s
      hOk s1 [Event.newTokens]
  | Op.fetchDone =>
    match pk.d with
    | none => hCrash s JSErr.typeError
    | some d =>
      if d.room.isSome && d.activeSpeakerMap then
        let room := activeRoomOfData d
        hOk { s with rooms := roomsAdd s.rooms room } [Event.joinedRoom room.id]
      else hOk s []
  | Op.userJoinRoom =>
    match pk.d with
    | none => hCrash s JSErr.typeError
    | some d =>
      match d.roomId.bind (fun rid => roomsGet s.rooms rid) with
      | none => hOk s []
      | some room =>
        let u := activeUserOfData (d.user.getD "")
        let users1 := usersAdd room.users u
        let users2 := (applyDelta users1 d.delta).users
        hOk { s with rooms := setRoom s.rooms { room with users := users2 } }
          [Event.userJoinRoom room.id u.id]
  | Op.userLeftRoom =>
    match pk.d with
    | none => hCrash s JSErr.typeError
    | some d =>
      match d.roomId.bind (fun rid => roomsGet s.rooms rid) with
      | none => hOk s []
      | some room =>
        match findUser room.users (d.userId.getD "") with
        | none => hCrash s JSErr.typeError
        | some u =>
          hOk { s with rooms :=
                setRoom s.rooms { room with users := usersRemove room.users u.id } }
            [Event.userLeftRoom room.id u.id]
  | Op.activeSpeakerChange =>
    match pk.d with
    | none => hCrash s JSErr.typeError
    | some d =>
      match d.roomId.bind (fun rid => roomsGet s.rooms rid) with
      | none => hOk s []
      | some room =>
        let r := applyDelta room.users d.delta
        hOk { s with rooms := setRoom s.rooms { room with users := r.users } }
          (r.speakingChanged.map Event.activeSpeakerChange ++
            r.muteChanged.map Event.muteChange ++
            r.deafenChanged.map Event.deafenChange)
  | Op.muteChanged =>
    match pk.d with
    | none => hCrash s JSErr.typeError
    | some d =>
      match d.roomId.bind (fun rid => roomsGet s.rooms rid) with
      | none => hOk s []
      | some room =>
        match findUser room.users (d.userId.getD "") with
        | none => hCrash s JSErr.typeError
        | some u =>
          let u1 := { u with voiceState := { u.voiceState with muted := d.value } }
          hOk { s with rooms := setRoom s.rooms { room with users := setUser room.users u1 } }
            [Event.muteChange u.id]
  | Op.deafenChanged =>
    match pk.d with
    | none => hCrash s JSErr.typeError
    | some d =>
      match d.roomId.bind (fun rid => roomsGet s.rooms rid) with
      | none => hOk s []
      | some room =>
        match findUser room.users (d.userId.getD "") with
        | none => hCrash s JSErr.typeError
        | some u =>
          let u1 := { u with voiceState := { u.voiceState with deafened := d.value } }
          hOk { s with rooms := setRoom s.rooms { room with users := setUser room.users u1 } }
            [Event.deafenChange u.id]
  | Op.newChatMsg =>
    match pk.d with
    | none => hCrash s JSErr.typeError
    | some _ => hOk s [Event.newChatMsg]
  | Op.msgDeleted =>
    match pk.d with
    | none => hCrash s JSErr.typeError
    | some d =>
      match s.currentRoom with
      | none => hCrash s JSErr.typeError
      | some _ => hOk s [Event.msgDeleted (d.messageId.getD "")]
  | Op.joinedPeer =>
    match pk.d with
    | none => hCrash s JSErr.typeError
    | some d =>
      match d.roomId.bind (fun rid => roomsGet s.rooms rid) with
      | none => hOk s []
      | some room =>
        hOk { s with
              voiceRecv := updOpt d.recvTransportOptions s.voiceRecv
              voiceRouter := updOpt d.routerRtpCapabilities s.voiceRouter }
          [Event.joinedAsPeer room.id]
  | Op.joinedSpeaker =>
    match pk.d with
    | none => hCrash s JSErr.typeError
    | some d =>
      match d.roomId.bind (fun rid => roomsGet s.rooms rid) with
      | none => hOk s []
      | some room =>
        hOk { s with
              voiceRecv := updOpt d.recvTransportOptions s.voiceRecv
              voiceSend := updOpt d.sendTransportOptions s.voiceSend
              voiceRouter := updOpt d.routerRtpCapabilities s.voiceRouter }
          [Event.joinedAsSpeaker room.id]
  | Op.nowSpeaker =>
    match pk.d with
    | none => hCrash s JSErr.typeError
    | some d =>
      match d.roomId.bind (fun rid => roomsGet s.rooms rid) with
      | none => hOk s []
      | some room =>
        hOk { s with
              voiceSend := updOpt d.sendTransportOptions s.voiceSend
              rooms := setRoom s.rooms { room with selfIsSpeaker := true } }
          [Event.becameSpeaker room.id]
  | Op.handRaised =>
    match pk.d with
    | none => hCrash s JSErr.typeError
    | some d =>
      match d.roomId.bind (fun rid => roomsGet s.rooms rid) with
      | none => hOk s []
      | some room =>
        match findUser room.users (d.userId.getD "") with
        | none => hCrash s JSErr.typeError
        | some u =>
          let u1 := { u with handRaised := true, askedToSpeak := true }
          let users2 := (applyDelta (setUser room.users u1) d.delta).users
          hOk { s with rooms := setRoom s.rooms { room with users := users2 } }
            [Event.handRaised u.id]
  | Op.speakerAdded =>
    match pk.d with
    | none => hCrash s JSErr.typeError
    | some d =>
      match d.roomId.bind (fun rid => roomsGet s.rooms rid) with
      | none => hOk s []
      | some room =>
        match findUser room.users (d.userId.getD "") with
        | none => hCrash s JSErr.typeError
        | some u =>
          let u1 := { u with isSpeaker := true }
          let users2 := (applyDelta (setUser room.users u1) d.delta).users
          hOk { s with rooms := setRoom s.rooms { room with users := users2 } }
            [Event.speakerAdded u.id]
  | Op.speakerRemoved =>
    match pk.d with
    | none => hCrash s JSErr.typeError
    | some d =>
      match d.roomId.bind (fun rid => roomsGet s.rooms rid) with
      | none => hOk s []
      | some room =>
        match findUser room.users (d.userId.getD "") with
        | none => hCrash s JSErr.typeError
        | some u =>
          let u1 := { u with isSpeaker := false }
          let users2 := (applyDelta (setUser room.users u1) d.delta).users
          let s1 := { s with rooms := setRoom s.rooms { room with users := users2 } }
          if room.audioConnection then
            match s.selfUserId with
            | none => hCrash s1 JSErr.typeError
            | some _ => hOk s1 [Event.speakerRemoved u.id]
          else hOk s1 [Event.speakerRemoved u.id]
  | Op.leftRoom =>
    match pk.d with
    | none => hCrash s JSErr.typeError
    | some d =>
      match d.roomId.bind (fun rid => roomsGet s.rooms rid) with
      | none => hOk s []
      | some room =>
        if room.audioConnection then
          match findUser room.users (d.userId.getD "") with
          | none => hCrash s JSErr.typeError
          | some _ =>
            match s.selfUserId with
            | none => hCrash s JSErr.typeError
            | some _ => hOk s [Event.leftRoom room.id d.kicked]
        else hOk s [Event.leftRoom room.id d.kicked]
  | Op.modChanged =>
    match pk.d with
    | none => hCrash s JSErr.typeError
    | some d =>
      match d.roomId.bind (fun rid => roomsGet s.rooms rid) with
      | none => hOk s []
      | some room =>
        match findUser room.users (d.userId.getD "") with
        | none => hCrash s JSErr.typeError
        | some u =>
          if u.isMod = d.isMod then ⟨s, [], none, true⟩
          else
            let room1 := { room with users := setUser room.users { u with isMod := d.isMod } }
            hOk { s with rooms := setRoom s.rooms room1 } [Event.modChange u.id]
  | Op.newCreator =>
    match pk.d with
    | none => hCrash s JSErr.typeError
    | some d =>
      match d.roomId.bind (fun rid => roomsGet s.rooms rid) with
      | none => hCrash s JSErr.typeError
      | some room =>
        hOk { s with rooms := setRoom s.rooms { room with creatorId := d.userId } } []
  | Op.other c =>
    hOk s (if isCustomOp c then [Event.custom c] else [])

/-- `wsEvent(packet)` (source lines 205-533): run the op-code switch, then —
unless a handler threw or returned — the two reply-resolution blocks. -/
def wsEvent (s : ClientState) (pk : Packet) : HOut :=
  let h := handleOp s pk
  if h.crashed.isSome || h.earlyReturn then h
  else
    let r := resolveRef h.state pk
    ⟨r.1, h.events ++ r.2, none, false⟩

/-! ### Connection Manager -/

/-- `options.reconnect` as passed to `disconnect`: the string `"auto"`, the
boolean `true` (from the close handler when the socket was already detached),
or absent. -/
inductive ReconnectOpt
  | auto
  | always
  | off
deriving DecidableEq, Repr

/-- The reconnect-interval update at source lines 652-655:
`Math.min(Math.round(interval * (Math.random() * 2 + 1)), 60000)`, with the
jitter `Math.random() * 2 + 1` passed in as `r`. -/
def nextReconnectInterval (prev : Nat) (r : ℚ) : Nat :=
  min (round ((prev : ℚ) * r)).toNat 60000

/-- Output of `disconnect`: the state, the emitted events, and the delay of a
scheduled reconnect attempt, when one was queued. -/
structure DiscOut where
  state : ClientState
  events : List Event
  scheduled : Option Nat
deriving DecidableEq, Repr

/-- `disconnect(options, error)` (source lines 625-659).  `closeThrows`
models whether `ws.close` throws (the failure is caught and reported).
Note `this.callbacks.forEach(...)` at lines 630-634: `Array.prototype.forEach`
visits only array-index properties, and the table is keyed by uuid strings,
so no request timer is cleared there; `reset()` then empties the table while
the timer closures stay scheduled. -/
def disconnect (s : ClientState) (opt : ReconnectOpt) (err : Option String)
    (r : ℚ) (closeThrows : Bool) : DiscOut :=
  let ws0 := s.ws
  let s1 := { s with ws := none, ready := false, connecting := false,
                     pingTimerActive := false }
  let ev2 :=
    match ws0 with
    | some _ =>
      (if closeThrows then [Event.errorEmitted "ws close failed"] else []) ++
        [Event.disconnected err]
    | none => []
  let s2 := resetState s1
  match opt with
  | ReconnectOpt.auto =>
    if s.opts.autoReconnect then
      { state := { s2 with reconnectInterval := nextReconnectInterval s2.reconnectInterval r }
        events := ev2 ++ [Event.debug "Queueing reconnect"]
        scheduled := some s2.reconnectInterval }
    else { state := s2, events := ev2, scheduled := none }
  | ReconnectOpt.always => { state := s2, events := ev2, scheduled := none }
  | ReconnectOpt.off =>
    { state := hardResetState s2, events := ev2, scheduled := none }

/-- The socket `close` listener (source lines 148-162): interpret the close
code, then disconnect with `reconnect: this.ws ? "auto" : true`. -/
def wsCloseEvent (s : ClientState) (code : Nat) (err : Option String)
    (r : ℚ) (closeThrows : Bool) : DiscOut :=
  let werr :=
    if code ≠ 0 then
      ([Event.warn "WS close"],
        if code = 4001 then some "Invalid authentication."
        else if code = 4003 then some "WebSocket was killed by the server."
        else if code = 1006 then some "Connection timeout. (Ping or network)"
        else err)
    else ([], err)
  let opt := match s.ws with
    | some _ => ReconnectOpt.auto
    | none => ReconnectOpt.always
  let d := disconnect s opt werr.2 r closeThrows
  { d with events := werr.1 ++ d.events }

/-- The branch of the `message` listener for the literal `"pong"` text frame
(source lines 128-137).  `this.lastPingSent` is `null` before any ping; the
JS subtraction coerces `null` to `0`. -/
def onPong (s : ClientState) (now : Nat) : ClientState :=
  { s with
    lastPingAck := true
    lastPingReceived := some now
    latency := Latency.ms ((now : Int) - ((s.lastPingSent.getD 0 : Nat) : Int)) }

/-- Output of one heartbeat-interval callback invocation. -/
structure TickOut where
  state : ClientState
  events : List Event
  scheduled : Option Nat
  crashed : Option JSErr
deriving DecidableEq, Repr

/-- The `setInterval` callback installed by the auth-reply handler (source
lines 221-233): if the previous ping was not acknowledged, force a
disconnect-with-auto-reconnect; then — with no early return — clear the ack
flag, stamp the send time and send `"ping"` on `this.ws` (which the
disconnect branch has just set to `null`). -/
def heartbeatTick (s : ClientState) (now : Nat) (r : ℚ) (closeThrows : Bool) :
    TickOut :=
  let step1 :=
    if s.lastPingAck = false then
      let d := disconnect s ReconnectOpt.auto
        (some "Server didn't acknowledge previous ping, possible lost connection")
        r closeThrows
      (d.state, d.events, d.scheduled)
    else (s, ([] : List Event), (none : Option Nat))
  let s2 := { step1.1 with lastPingAck := false, lastPingSent := some now }
  match s2.ws with
  | none =>
    { state := s2, events := step1.2.1, scheduled := step1.2.2,
      crashed := some JSErr.typeError }
  | some _ =>
    { state := s2, events := step1.2.1 ++ [Event.pingSent],
      scheduled := step1.2.2, crashed := none }

/-- `initWS()` (socket construction at source line 125). -/
def initWS (s : ClientState) : ClientState :=
  { s with ws := some { readyState := ReadyState.connecting } }

/-- Output of `connect()`: state, events, whether a new WebSocket was
constructed synchronously, whether the HTTP bootstrap exchange was started
(the socket then opens in its response callback), and the connection-timeout
delay that was scheduled. -/
structure ConnOut where
  state : ClientState
  events : List Event
  openedSocket : Bool
  startedBootstrap : Bool
  connTimeout : Nat
deriving DecidableEq, Repr

/-- `connect()` (source lines 75-122).  The existing-connection guard emits
an error but does not return; execution falls through to the attempt counter,
the connecting flag and socket construction. -/
def connect (s : ClientState) : ConnOut :=
  let evExisting :=
    match s.ws with
    | some w =>
      if w.readyState ≠ ReadyState.closed then
        [Event.errorEmitted "Existing connection detected"]
      else []
    | none => []
  let s1 := { s with connectAttempts := s.connectAttempts + 1, connecting := true }
  if s1.tokenRaw.isSome then
    { state := s1, events := evExisting, openedSocket := false,
      startedBootstrap := true, connTimeout := s.opts.connectionTimeout }
  else
    { state := initWS s1, events := evExisting, openedSocket := true,
      startedBootstrap := false, connTimeout := s.opts.connectionTimeout }

/-- The connection-timeout `setTimeout` callback (source lines 112-121). -/
def connTimeoutFire (s : ClientState) (r : ℚ) (closeThrows : Bool) : DiscOut :=
  if s.connecting then
    disconnect s ReconnectOpt.auto (some "Connection timeout") r closeThrows
  else { state := s, events := [], scheduled := none }

/-- The parsed body of the bootstrap `POST /bot/auth` response. -/
inductive BootstrapBody
  | unparsable
  | parsed (error accessToken refreshToken : Option String)
deriving DecidableEq, Repr

/-- Output of the bootstrap response-end callback. -/
structure BootOut where
  state : ClientState
  events : List Event
  crashed : Option JSErr
  openedSocket : Bool
deriving DecidableEq, Repr

/-- The `end` callback of the bootstrap HTTP response (source lines 95-105):
parse the body; an `error` field makes the inner `throw` fire, which the
surrounding `try` catches and turns into a second `throw` that escapes the
callback uncaught.  On success the tokens are stored and the socket opened. -/
def bootstrapEnd (s : ClientState) (b : BootstrapBody) : BootOut :=
  match b with
  | BootstrapBody.unparsable =>
    { state := s, events := [],
      crashed := some (JSErr.thrown "Failed to get bot token"),
      openedSocket := false }
  | BootstrapBody.parsed (some _) _ _ =>
    { state := s, events := [],
      crashed := some (JSErr.thrown "Failed to get bot token"),
      openedSocket := false }
  | BootstrapBody.parsed none acc refr =>
    { state := initWS { s with accessToken := acc, refreshToken := refr },
      events := [], crashed := none, openedSocket := true }

/-- An inbound socket frame: the literal `"pong"` text, or a JSON envelope. -/
inductive Frame
  | pongText
  | packet (pk : Packet)
deriving DecidableEq, Repr

/-- The socket `message` listener (source lines 127-143); the unconditional
`rawWS` diagnostic re-emit is not modelled. -/
def onMessage (s : ClientState) (f : Frame) (now : Nat) : HOut :=
  match f with
  | Frame.pongText => ⟨onPong s now, [], none, false⟩
  | Frame.packet pk => wsEvent s pk

/-! ### Concrete fixtures used to evaluate the model -/

/-- A freshly constructed client holding an access/refresh token pair. -/
def baseState : ClientState :=
  initialState none (some "acc") (some "ref") defaultOptions

/-- A `packet.d` payload with every field absent. -/
def emptyData : PacketData :=
  { roomId := none, userId := none, user := none, messageId := none,
    deleterId := none, value := false, isMod := false, kicked := false,
    accessToken := none, refreshToken := none, room := none,
    activeSpeakerMap := false, delta := [], recvTransportOptions := none,
    sendTransportOptions := none, routerRtpCapabilities := none }

/-- A client with one pending request registered under correlation id `"r"`
(success continuation 0, error continuation 1, timer 2). -/
def oneRegState : ClientState := waitForRef baseState "r" 0 1 2

/-- A client with two pending requests sharing correlation id `"r"`. -/
def twoRegState : ClientState :=
  waitForRef (waitForRef baseState "r" 0 1 2) "r" 3 4 5

/-- A reply frame for correlation id `"r"` with a success payload. -/
def replyPk : Packet :=
  { op := Op.other "x", d := none, p := some "ok", ref := some "r",
    fetchId := none, e := none }

/-- A reply frame for correlation id `"r"` carrying both an error field and a
success payload. -/
def bothPk : Packet :=
  { op := Op.other "x", d := none, p := some "ok", ref := some "r",
    fetchId := none, e := some "boom" }

/-- A room `"A"` whose single user `"u"` is already a moderator. -/
def modRoom : RoomEntry :=
  { id := "A", creatorId := some "c",
    users := [{ id := "u", voiceState := ⟨false, false, false⟩,
                handRaised := false, isSpeaker := false, isMod := true,
                askedToSpeak := false }],
    selfIsSpeaker := false, audioConnection := false }

/-- A client aware of `modRoom` with one pending request under `"r"`. -/
def modState : ClientState := waitForRef { baseState with rooms := [modRoom] } "r" 0 1 2

/-- A `MOD_CHANGED` broadcast that is also the reply to request `"r"`, whose
`isMod` value matches the mirror's current value. -/
def modNoChangePk : Packet :=
  { op := Op.modChanged,
    d := some { emptyData with roomId := some "A", userId := some "u", isMod := true },
    p := some "ok", ref := some "r", fetchId := none, e := none }

/-- A `NEW_CREATOR` frame naming a room the mirror does not hold. -/
def newCreatorUnknownPk : Packet :=
  { op := Op.newCreator,
    d := some { emptyData with roomId := some "x", userId := some "u" },
    p := none, ref := none, fetchId := none, e := none }

/-- A `MSG_DELETED` frame, arriving while the client is in no room. -/
def msgDeletedPk : Packet :=
  { op := Op.msgDeleted,
    d := some { emptyData with messageId := some "m", deleterId := some "u" },
    p := none, ref := none, fetchId := none, e := none }

/-- A ready client whose previous ping was never acknowledged. -/
def missedPongState : ClientState :=
  { baseState with ws := some { readyState := ReadyState.opened },
                   lastPingAck := false, ready := true, pingTimerActive := true }

/-- A client with an open socket (for re-entrant `connect`). -/
def openSocketState : ClientState :=
  { baseState with ws := some { readyState := ReadyState.opened } }

/-- A client that sent a ping at time 3. -/
def pingedState : ClientState := { baseState with lastPingSent := some 3 }

/-- A client mid-bootstrap: `connect()` was called with a raw API key, the
HTTP exchange is still in flight, so the connecting flag is set and no socket
exists yet. -/
def bootstrapWaitState : ClientState :=
  { baseState with tokenRaw := some "key", connecting := true }

/-- A client whose socket is open while the connection attempt is still in
progress (connection-timeout timer armed). -/
def connTimeoutSockState : ClientState :=
  { openSocketState with connecting := true }

/-- A room `"B"` with two users: `"a"` silent, `"b"` speaking and deafened. -/
def voiceRoom : RoomEntry :=
  { id := "B", creatorId := none,
    users := [{ id := "a", voiceState := ⟨false, false, false⟩,
                handRaised := false, isSpeaker := false, isMod := false,
                askedToSpeak := false },
              { id := "b", voiceState := ⟨true, false, true⟩,
                handRaised := false, isSpeaker := false, isMod := false,
                askedToSpeak := false }],
    selfIsSpeaker := false, audioConnection := false }

/-- A client aware of `voiceRoom`. -/
def voiceState' : ClientState := { baseState with rooms := [voiceRoom] }

/-- The payload of `voiceDeltaPk`. -/
def voiceDeltaData : PacketData :=
  { emptyData with
    roomId := some "B"
    activeSpeakerMap := true
    delta := [("a", ⟨true, false, false⟩), ("b", ⟨true, true, true⟩)] }

/-- An active-speaker delta for room `"B"`: `"a"` starts speaking, `"b"`
keeps speaking and deafened but becomes muted. -/
def voiceDeltaPk : Packet :=
  { op := Op.activeSpeakerChange, d := some voiceDeltaData,
    p := none, ref := none, fetchId := none, e := none }

/-- An `AUTH_REPLY` frame delivering the bot user. -/
def authReplyPk : Packet :=
  { op := Op.authReply, d := none, p := some "self", ref := none,
    fetchId := none, e := none }

/-- A `NEW_CHAT_MSG` frame that is also the reply to request `"r"`. -/
def chatReplyPk : Packet :=
  { op := Op.newChatMsg, d := some emptyData, p := some "ok", ref := some "r",
    fetchId := none, e := none }

/-! ### Theorems -/

theorem findUser_setUserVoice_ne (uid vid : String) (obs : VoiceFlags)
    (h : uid ≠ vid) :
    ∀ users, findUser (setUserVoice users vid obs) uid = findUser users uid := by
  intro users
  induction users with
  | nil => rfl
  | cons u us ih =>
    simp only [setUserVoice, List.map_cons, findUser] at ih ⊢
    by_cases hu : u.id = vid
    · rw [if_pos hu]
      have hne : u.id ≠ uid := by rw [hu]; exact Ne.symm h
      rw [show ({ u with voiceState := obs } : RoomUser).id = u.id from rfl]
      rw [if_neg hne, if_neg hne]
      exact ih
    · rw [if_neg hu]
      by_cases hu2 : u.id = uid
      · rw [if_pos hu2, if_pos hu2]
      · rw [if_neg hu2, if_neg hu2]
        exact ih

theorem applyDelta_changed_eq :
    ∀ (delta : List (String × VoiceFlags)) (users : List RoomUser),
      (applyDelta users delta).speakingChanged =
          changedList (fun v => v.speaking) users delta ∧
        (applyDelta users delta).muteChanged =
          changedList (fun v => v.muted) users delta ∧
        (applyDelta users delta).deafenChanged =
          changedList (fun v => v.deafened) users delta := by
  intro delta
  induction delta with
  | nil => intro users; simp [applyDelta, changedList]
  | cons p rest ih =>
    intro users
    obtain ⟨vid, obs⟩ := p
    cases hf : findUser users vid with
    | none => simp [applyDelta, changedList, hf, ih users]
    | some u => simp [applyDelta, changedList, hf, ih (setUserVoice users vid obs)]

theorem not_mem_changedList (f : VoiceFlags → Bool) (uid : String) :
    ∀ (delta : List (String × VoiceFlags)) (users : List RoomUser),
      uid ∉ delta.map Prod.fst → uid ∉ changedList f users delta := by
  intro delta
  induction delta with
  | nil => intro users _; simp [changedList]
  | cons p rest ih =>
    intro users h
    obtain ⟨vid, obs⟩ := p
    simp only [List.map_cons, List.mem_cons, not_or] at h
    obtain ⟨h1, h2⟩ := h
    cases hf : findUser users vid with
    | none => simpa [changedList, hf] using ih users h2
    | some u =>
      simp only [changedList, hf, List.mem_append, not_or]
      constructor
      · split <;> simp [h1]
      · exact ih (setUserVoice users vid obs) h2

theorem findUser_applyDelta_not_mem (uid : String) :
    ∀ (delta : List (String × VoiceFlags)) (users : List RoomUser),
      uid ∉ delta.map Prod.fst →
      findUser (applyDelta users delta).users uid = findUser users uid := by
  intro delta
  induction delta with
  | nil => intro users _; simp [applyDelta]
  | cons p rest ih =>
    intro users h
    obtain ⟨vid, obs⟩ := p
    simp only [List.map_cons, List.mem_cons, not_or] at h
    obtain ⟨h1, h2⟩ := h
    cases hf : findUser users vid with
    | none => simpa [applyDelta, hf] using ih users h2
    | some u =>
      simp only [applyDelta, hf]
      rw [ih (setUserVoice users vid obs) h2,
        findUser_setUserVoice_ne uid vid obs h1]

theorem roomsGet_id (rooms : List RoomEntry) (rid : String) (room : RoomEntry)
    (h : roomsGet rooms rid = some room) : room.id = rid := by
  induction rooms with
  | nil => cases h
  | cons r rs ih =>
    by_cases hr : r.id = rid
    · rw [roomsGet, if_pos hr] at h
      obtain rfl : r = room := Option.some_inj.mp h
      exact hr
    · rw [roomsGet, if_neg hr] at h
      exact ih h

theorem roomsGet_setRoom_self (rooms : List RoomEntry) (rid : String)
    (room r' : RoomEntry) (h : roomsGet rooms rid = some room)
    (hid : r'.id = rid) :
    roomsGet (setRoom rooms r') rid = some r' := by
  induction rooms with
  | nil => cases h
  | cons r rs ih =>
    simp only [roomsGet] at h
    simp only [setRoom, List.map_cons] at ih ⊢
    by_cases hr : r.id = rid
    · have hrr : r.id = r'.id := by rw [hr, hid]
      rw [if_pos hrr]
      simp [roomsGet, hid]
    · have hrr : ¬r.id = r'.id := fun e => hr (e.trans hid)
      rw [if_neg hr] at h
      rw [if_neg hrr]
      simp only [roomsGet, if_neg hr]
      exact ih h

theorem resolveRef_fields (s : ClientState) (pk : Packet) :
    (resolveRef s pk).1.rooms = s.rooms ∧
    (resolveRef s pk).1.callbacks = s.callbacks ∧
    (resolveRef s pk).1.reconnectInterval = s.reconnectInterval ∧
    (resolveRef s pk).1.connectAttempts = s.connectAttempts :=
  ⟨rfl, rfl, rfl, rfl⟩

theorem resolveStep_events_shape (cbs : List (String × List CBEntry))
    (timers : List (Nat × Nat)) (key : Option String) (hasE success : Bool)
    (e : Event) (he : e ∈ (resolveStep cbs timers key hasE success).2) :
    (∃ i, e = Event.cbSuccess i) ∨ ∃ i r, e = Event.cbError i r := by
  cases key with
  | none => simp [resolveStep] at he
  | some r =>
    cases hcl : cbLookup cbs r with
    | none => simp [resolveStep, hcl] at he
    | some l =>
      simp only [resolveStep, hcl, List.mem_append] at he
      rcases he with h | h
      · split at h
        · obtain ⟨f, _, rfl⟩ := List.mem_map.mp h
          exact Or.inr ⟨f.eid, ErrReason.serverErr, rfl⟩
        · exact absurd h (List.not_mem_nil _)
      · split at h
        · obtain ⟨f, _, rfl⟩ := List.mem_map.mp h
          exact Or.inl ⟨f.sid, rfl⟩
        · exact absurd h (List.not_mem_nil _)

theorem resolveRef_events_shape (s : ClientState) (pk : Packet) (e : Event)
    (he : e ∈ (resolveRef s pk).2) :
    (∃ i, e = Event.cbSuccess i) ∨ ∃ i r, e = Event.cbError i r := by
  rcases List.mem_append.mp he with h | h
  · exact resolveStep_events_shape _ _ _ _ _ e h
  · exact resolveStep_events_shape _ _ _ _ _ e h

theorem mem_changedList_iff (f : VoiceFlags → Bool) (uid : String) :
    ∀ (delta : List (String × VoiceFlags)) (users : List RoomUser),
      (delta.map Prod.fst).Nodup →
      (uid ∈ changedList f users delta ↔
        ∃ obs, (uid, obs) ∈ delta ∧
          ∃ u, findUser users uid = some u ∧ f u.voiceState ≠ f obs) := by
  intro delta
  induction delta with
  | nil => intro users _; simp [changedList]
  | cons p rest ih =>
    intro users hnd
    obtain ⟨vid, obs₀⟩ := p
    simp only [List.map_cons, List.nodup_cons] at hnd
    obtain ⟨hvid, hnd1⟩ := hnd
    cases hf : findUser users vid with
    | none =>
      rw [changedList, hf, ih users hnd1]
      constructor
      · rintro ⟨obs, hobs, u, hu, hne⟩
        exact ⟨obs, List.mem_cons_of_mem _ hobs, u, hu, hne⟩
      · rintro ⟨obs, hobs, u, hu, hne⟩
        rcases List.mem_cons.mp hobs with heq | hmem
        · have e1 : uid = vid := congrArg Prod.fst heq
          subst e1
          rw [hf] at hu
          cases hu
        · exact ⟨obs, hmem, u, hu, hne⟩
    | some u₀ =>
      rw [changedList, hf]
      by_cases hu : uid = vid
      · subst hu
        have hnot : uid ∉ changedList f (setUserVoice users uid obs₀) rest :=
          not_mem_changedList f uid rest _ hvid
        simp only [List.mem_append, hnot, or_false]
        constructor
        · intro hin
          have hcond : f u₀.voiceState ≠ f obs₀ := by
            by_contra hc
            rw [if_neg (not_not_intro hc)] at hin
            exact absurd hin (List.not_mem_nil _)
          exact ⟨obs₀, List.mem_cons_self _ _, u₀, hf, hcond⟩
        · rintro ⟨obs, hobs, u, hu', hne⟩
          rcases List.mem_cons.mp hobs with heq | hmem
          · have e2 : obs = obs₀ := congrArg Prod.snd heq
            subst e2
            rw [hf] at hu'
            obtain rfl : u₀ = u := Option.some_inj.mp hu'
            simp [hne]
          · exact absurd (List.mem_map_of_mem Prod.fst hmem) hvid
      · have hhead : uid ∉ (if f u₀.voiceState ≠ f obs₀ then [vid] else []) := by
          split <;> simp [hu]
        simp only [List.mem_append, hhead, false_or]
        rw [ih (setUserVoice users vid obs₀) hnd1]
        constructor
        · rintro ⟨obs, hobs, u, hu', hne⟩
          rw [findUser_setUserVoice_ne uid vid obs₀ hu] at hu'
          exact ⟨obs, List.mem_cons_of_mem _ hobs, u, hu', hne⟩
        · rintro ⟨obs, hobs, u, hu', hne⟩
          rcases List.mem_cons.mp hobs with heq | hmem
          · exact absurd (congrArg Prod.fst heq) hu
          · rw [← findUser_setUserVoice_ne uid vid obs₀ hu] at hu'
            exact ⟨obs, hmem, u, hu', hne⟩

/-- C2: for every voice-state delta applied through the
`ACTIVE_SPEAKER_CHANGE` handler, a user receives an `activeSpeakerChange`
event exactly when the delta's speaking flag for that user differs from the
mirror's immediately preceding value, likewise independently for mute and
deafen changes; a user absent from the delta receives no event and their
mirrored voice state is left untouched (reconciler modelled from the spec,
`core/ActiveRoom.js` being absent from the source tree). -/
theorem C2_speaker_change_events (s : ClientState) (pk : Packet)
    (d : PacketData) (rid : String) (room : RoomEntry) (uid : String)
    (hop : pk.op = Op.activeSpeakerChange) (hd : pk.d = some d)
    (hrid : d.roomId = some rid) (hroom : roomsGet s.rooms rid = some room)
    (hnd : (d.delta.map Prod.fst).Nodup) :
    (Event.activeSpeakerChange uid ∈ (wsEvent s pk).events ↔
      ∃ obs, (uid, obs) ∈ d.delta ∧
        ∃ u, findUser room.users uid = some u ∧
          u.voiceState.speaking ≠ obs.speaking) ∧
    (Event.muteChange uid ∈ (wsEvent s pk).events ↔
      ∃ obs, (uid, obs) ∈ d.delta ∧
        ∃ u, findUser room.users uid = some u ∧
          u.voiceState.muted ≠ obs.muted) ∧
    (Event.deafenChange uid ∈ (wsEvent s pk).events ↔
      ∃ obs, (uid, obs) ∈ d.delta ∧
        ∃ u, findUser room.users uid = some u ∧
          u.voiceState.deafened ≠ obs.deafened) ∧
    (uid ∉ d.delta.map Prod.fst →
      ∃ room1, roomsGet (wsEvent s pk).state.rooms rid = some room1 ∧
        findUser room1.users uid = findUser room.users uid) := by
  have hbind : d.roomId.bind (fun r => roomsGet s.rooms r) = some room := by
    rw [hrid]
    simpa using hroom
  have hmain : (wsEvent s pk).events =
      ((applyDelta room.users d.delta).speakingChanged.map
          Event.activeSpeakerChange ++
        (applyDelta room.users d.delta).muteChanged.map Event.muteChange ++
        (applyDelta room.users d.delta).deafenChanged.map Event.deafenChange) ++
        (resolveRef { s with rooms := setRoom s.rooms { room with users := (applyDelta room.users d.delta).users } } pk).2 := by
    simp [wsEvent, handleOp, hop, hd, hbind, hOk]
  have hstate : (wsEvent s pk).state =
      (resolveRef { s with rooms := setRoom s.rooms { room with users := (applyDelta room.users d.delta).users } } pk).1 := by
    simp [wsEvent, handleOp, hop, hd, hbind, hOk]
  have hspeq := (applyDelta_changed_eq d.delta room.users).1
  have hmueq := (applyDelta_changed_eq d.delta room.users).2.1
  have hdeeq := (applyDelta_changed_eq d.delta room.users).2.2
  refine ⟨?_, ?_, ?_, ?_⟩
  · rw [hmain]
    constructor
    · intro hm
      rcases List.mem_append.mp hm with hm1 | hm2
      · have hmm : uid ∈ (applyDelta room.users d.delta).speakingChanged := by
          rcases List.mem_append.mp hm1 with h12 | h3
          · rcases List.mem_append.mp h12 with h1 | h2
            · obtain ⟨a, ha, hae⟩ := List.mem_map.mp h1
              exact Event.noConfusion hae (fun h => h ▸ ha)
            · obtain ⟨a, _, hae⟩ := List.mem_map.mp h2
              exact Event.noConfusion hae
          · obtain ⟨a, _, hae⟩ := List.mem_map.mp h3
            exact Event.noConfusion hae
        rw [hspeq] at hmm
        exact (mem_changedList_iff _ uid d.delta room.users hnd).mp hmm
      · rcases resolveRef_events_shape _ _ _ hm2 with ⟨i, hi⟩ | ⟨i, rr, hi⟩ <;>
          exact Event.noConfusion hi
    · intro hex
      have hmm : uid ∈ (applyDelta room.users d.delta).speakingChanged := by
        rw [hspeq]
        exact (mem_changedList_iff _ uid d.delta room.users hnd).mpr hex
      exact List.mem_append.mpr (Or.inl (List.mem_append.mpr (Or.inl
        (List.mem_append.mpr (Or.inl (List.mem_map_of_mem _ hmm))))))
  · rw [hmain]
    constructor
    · intro hm
      rcases List.mem_append.mp hm with hm1 | hm2
      · have hmm : uid ∈ (applyDelta room.users d.delta).muteChanged := by
          rcases List.mem_append.mp hm1 with h12 | h3
          · rcases List.mem_append.mp h12 with h1 | h2
            · obtain ⟨a, _, hae⟩ := List.mem_map.mp h1
              exact Event.noConfusion hae
            · obtain ⟨a, ha, hae⟩ := List.mem_map.mp h2
              exact Event.noConfusion hae (fun h => h ▸ ha)
          · obtain ⟨a, _, hae⟩ := List.mem_map.mp h3
            exact Event.noConfusion hae
        rw [hmueq] at hmm
        exact (mem_changedList_iff _ uid d.delta room.users hnd).mp hmm
      · rcases resolveRef_events_shape _ _ _ hm2 with ⟨i, hi⟩ | ⟨i, rr, hi⟩ <;>
          exact Event.noConfusion hi
    · intro hex
      have hmm : uid ∈ (applyDelta room.users d.delta).muteChanged := by
        rw [hmueq]
        exact (mem_changedList_iff _ uid d.delta room.users hnd).mpr hex
      exact List.mem_append.mpr (Or.inl (List.mem_append.mpr (Or.inl
        (List.mem_append.mpr (Or.inr (List.mem_map_of_mem _ hmm))))))
  · rw [hmain]
    constructor
    · intro hm
      rcases List.mem_append.mp hm with hm1 | hm2
      · have hmm : uid ∈ (applyDelta room.users d.delta).deafenChanged := by
          rcases List.mem_append.mp hm1 with h12 | h3
          · rcases List.mem_append.mp h12 with h1 | h2
            · obtain ⟨a, _, hae⟩ := List.mem_map.mp h1
              exact Event.noConfusion hae
            · obtain ⟨a, _, hae⟩ := List.mem_map.mp h2
              exact Event.noConfusion hae
          · obtain ⟨a, ha, hae⟩ := List.mem_map.mp h3
            exact Event.noConfusion hae (fun h => h ▸ ha)
        rw [hdeeq] at hmm
        exact (mem_changedList_iff _ uid d.delta room.users hnd).mp hmm
      · rcases resolveRef_events_shape _ _ _ hm2 with ⟨i, hi⟩ | ⟨i, rr, hi⟩ <;>
          exact Event.noConfusion hi
    · intro hex
      have hmm : uid ∈ (applyDelta room.users d.delta).deafenChanged := by
        rw [hdeeq]
        exact (mem_changedList_iff _ uid d.delta room.users hnd).mpr hex
      exact List.mem_append.mpr (Or.inl (List.mem_append.mpr (Or.inr
        (List.mem_map_of_mem _ hmm))))
  · intro hnm
    refine ⟨{ room with users := (applyDelta room.users d.delta).users }, ?_, ?_⟩
    · rw [hstate, (resolveRef_fields _ _).1]
      exact roomsGet_setRoom_self s.rooms rid room _ hroom
        (roomsGet_id s.rooms rid room hroom)
    · exact findUser_applyDelta_not_mem uid d.delta room.users hnm

/-- C1 (amended): a reply for a registered correlation id invokes the error
continuations when it carries an error field and the success continuations
when it carries a success payload (both when both fields are present) and
cancels the registrations' timers; the expiry timer, while scheduled, fires
its own error continuation with the timeout condition and consumes itself, so
it cannot fire twice; but the table entry is never destroyed — the
registration survives the reply or the timeout, so a later matching reply
invokes the continuations again. -/
theorem C1_pending_request_lifecycle (s : ClientState) (rf : String)
    (l : List CBEntry) (pk : Packet) (tid : Nat)
    (href : pk.ref = some rf) (hfid : pk.fetchId = none)
    (hl : cbLookup s.callbacks rf = some l) :
    ((resolveRef s pk).2 =
      (if pk.e.isSome then
        l.map (fun f => Event.cbError f.eid ErrReason.serverErr) else []) ++
        (if pk.p.isSome then l.map (fun f => Event.cbSuccess f.sid) else []) ∧
      cbLookup (resolveRef s pk).1.callbacks rf = some l ∧
      (resolveRef s pk).1.activeTimers =
        s.activeTimers.filter (fun te => l.all (fun f => f.tid ≠ te.1))) ∧
    (timerFire (timerFire s tid).1 tid).2 = [] := by
  refine ⟨⟨?_, ?_, ?_⟩, ?_⟩
  · simp [resolveRef, resolveStep, href, hfid, hl]
  · simpa [resolveRef] using hl
  · simp [resolveRef, resolveStep, href, hfid, hl]
  · cases hft : s.activeTimers.find? (fun te => te.1 = tid) with
    | none => simp [timerFire, hft]
    | some te =>
      have hnone : ((s.activeTimers.filter (fun x => x.1 ≠ tid)).find?
          (fun te => te.1 = tid)) = none := by
        rw [List.find?_eq_none]
        intro x hx
        have hxf := List.of_mem_filter hx
        simpa using hxf
      simp only [timerFire, hft]
      rw [hnone]

/-- Every op-code handler leaves the pending-request table and its timers
untouched: only the post-dispatch resolution blocks and `waitForRef` write
them. -/
theorem handleOp_preserves_table (s : ClientState) (pk : Packet) :
    (handleOp s pk).state.callbacks = s.callbacks ∧
    (handleOp s pk).state.activeTimers = s.activeTimers := by
  obtain ⟨op, pd, pp, pref, pfid, pe⟩ := pk
  cases op <;> cases pd <;>
    (try exact ⟨rfl, rfl⟩) <;>
    simp only [handleOp, hOk, hCrash] <;>
    constructor <;>
    (repeat' split) <;>
    rfl

/-- C3 (amended): when the selected handler neither throws nor returns early,
the reply-resolution blocks always run after it, on the same pending-request
table the packet arrived to (no handler writes the table), independent of
which events the handler emitted; the `MOD_CHANGED` no-change early return
and a throwing handler are the exceptions that skip resolution. -/
theorem C3_resolution_independent (s : ClientState) (pk : Packet)
    (hnc : (handleOp s pk).crashed = none)
    (hnr : (handleOp s pk).earlyReturn = false) :
    (handleOp s pk).state.callbacks = s.callbacks ∧
    (handleOp s pk).state.activeTimers = s.activeTimers ∧
    wsEvent s pk = ⟨(resolveRef (handleOp s pk).state pk).1,
      (handleOp s pk).events ++ (resolveRef (handleOp s pk).state pk).2,
      none, false⟩ := by
  refine ⟨(handleOp_preserves_table s pk).1, (handleOp_preserves_table s pk).2, ?_⟩
  simp [wsEvent, hnc, hnr]

/-- C4 (amended): a single reply for a shared correlation id invokes all
registered continuations for that id together and cancels all their timers;
a timeout, in contrast, invokes only the error continuation of the
registration whose timer fired and cancels no other registration's timer. -/
theorem C4_shared_ref_fanout (s : ClientState) (rf : String) (l : List CBEntry)
    (pk : Packet) (tid eid : Nat)
    (href : pk.ref = some rf) (hfid : pk.fetchId = none)
    (he : pk.e = none) (hp : pk.p.isSome = true)
    (hl : cbLookup s.callbacks rf = some l)
    (hft : s.activeTimers.find? (fun te => te.1 = tid) = some (tid, eid)) :
    ((resolveRef s pk).2 = l.map (fun f => Event.cbSuccess f.sid) ∧
      ∀ f ∈ l, ∀ te ∈ (resolveRef s pk).1.activeTimers, te.1 ≠ f.tid) ∧
    ((timerFire s tid).2 = [Event.cbError eid ErrReason.timedOut] ∧
      ∀ te ∈ s.activeTimers, te.1 ≠ tid → te ∈ (timerFire s tid).1.activeTimers) := by
  refine ⟨⟨?_, ?_⟩, ?_, ?_⟩
  · simp [resolveRef, resolveStep, href, hfid, hl, he, hp]
  · intro f hf te hte
    have htimers : (resolveRef s pk).1.activeTimers =
        s.activeTimers.filter (fun te => l.all (fun f => f.tid ≠ te.1)) := by
      simp [resolveRef, resolveStep, href, hfid, hl]
    rw [htimers] at hte
    have h2 := List.of_mem_filter hte
    rw [List.all_eq_true] at h2
    have h3 : f.tid ≠ te.1 := by simpa using h2 f hf
    exact fun hx => h3 hx.symm
  · simp [timerFire, hft]
  · intro te hte hne
    simp only [timerFire, hft]
    exact List.mem_filter.mpr ⟨hte, by simpa using hne⟩

/-- C5: a disconnect requested with auto-reconnect while auto-reconnect is
enabled schedules a retry after the current reconnect interval and then sets
the interval to min(round(prev·r), 60000) with jitter r ∈ [1,3), so the next
interval lies in [prev, 3·prev] capped at 60000; a successful authentication
reply resets the interval to 1000 and the attempt counter to zero. -/
theorem C5_reconnect_backoff (s s2 : ClientState) (err : Option String)
    (r : ℚ) (ct : Bool) (pk : Packet)
    (hauto : s.opts.autoReconnect = true) (hr1 : 1 ≤ r) (hr3 : r < 3)
    (hcap : s.reconnectInterval ≤ 60000) (hop : pk.op = Op.authReply) :
    (disconnect s ReconnectOpt.auto err r ct).scheduled =
      some s.reconnectInterval ∧
    (disconnect s ReconnectOpt.auto err r ct).state.reconnectInterval =
      min (round ((s.reconnectInterval : ℚ) * r)).toNat 60000 ∧
    s.reconnectInterval ≤
      (disconnect s ReconnectOpt.auto err r ct).state.reconnectInterval ∧
    (disconnect s ReconnectOpt.auto err r ct).state.reconnectInterval ≤
      min (3 * s.reconnectInterval) 60000 ∧
    (wsEvent s2 pk).state.reconnectInterval = 1000 ∧
    (wsEvent s2 pk).state.connectAttempts = 0 := by
  have hprevq : (0 : ℚ) ≤ (s.reconnectInterval : ℚ) := by positivity
  have hlow : (s.reconnectInterval : ℤ) ≤ round ((s.reconnectInterval : ℚ) * r) := by
    rw [round_eq, Int.le_floor]
    push_cast
    nlinarith [mul_le_mul_of_nonneg_left hr1 hprevq]
  have hround0 : (0 : ℤ) ≤ round ((s.reconnectInterval : ℚ) * r) :=
    le_trans (by positivity) hlow
  have hhigh : round ((s.reconnectInterval : ℚ) * r) ≤
      3 * (s.reconnectInterval : ℤ) := by
    rw [round_eq]
    have hlt : (s.reconnectInterval : ℚ) * r + 1 / 2 <
        ((3 * (s.reconnectInterval : ℤ) + 1 : ℤ) : ℚ) := by
      push_cast
      nlinarith [mul_le_mul_of_nonneg_left (le_of_lt hr3) hprevq]
    have h2 := Int.floor_lt.mpr hlt
    omega
  have heq : (disconnect s ReconnectOpt.auto err r ct).state.reconnectInterval =
      min (round ((s.reconnectInterval : ℚ) * r)).toNat 60000 := by
    cases hws : s.ws <;>
      simp [disconnect, hauto, hws, resetState, nextReconnectInterval]
  refine ⟨?_, heq, ?_, ?_, ?_, ?_⟩
  · cases hws : s.ws <;> simp [disconnect, hauto, hws, resetState]
  · rw [heq]
    refine le_min ?_ hcap
    exact (Int.le_toNat hround0).mpr hlow
  · rw [heq]
    refine min_le_min ?_ le_rfl
    have := Int.toNat_le.mpr hhigh
    omega
  · have h1 : (wsEvent s2 pk).state = (resolveRef (handleOp s2 pk).state pk).1 := by
      simp [wsEvent, handleOp, hop, hOk]
    rw [h1, (resolveRef_fields _ _).2.2.1]
    simp [handleOp, hop, hOk]
  · have h1 : (wsEvent s2 pk).state = (resolveRef (handleOp s2 pk).state pk).1 := by
      simp [wsEvent, handleOp, hop, hOk]
    rw [h1, (resolveRef_fields _ _).2.2.2]
    simp [handleOp, hop, hOk]

/-- C6: a literal `"pong"` frame sets the latency estimate to receive time
minus send time and clears the awaiting-ack flag; when the heartbeat timer
fires with the flag still unacknowledged, the connection is torn down (socket
detached, heartbeat interval cleared, disconnect notification emitted) and,
auto-reconnect being enabled, a reconnect is scheduled after the current
backoff interval. -/
theorem C6_heartbeat_protocol (s s' : ClientState) (now t : Nat) (r : ℚ)
    (ct : Bool) (w : Socket)
    (hsent : s.lastPingSent = some t)
    (hack : s'.lastPingAck = false) (hws : s'.ws = some w)
    (hauto : s'.opts.autoReconnect = true) :
    (onPong s now).lastPingAck = true ∧
    (onPong s now).latency = Latency.ms ((now : Int) - (t : Int)) ∧
    (heartbeatTick s' now r ct).state.ws = none ∧
    (heartbeatTick s' now r ct).state.pingTimerActive = false ∧
    Event.disconnected
        (some "Server didn't acknowledge previous ping, possible lost connection") ∈
      (heartbeatTick s' now r ct).events ∧
    (heartbeatTick s' now r ct).scheduled = some s'.reconnectInterval := by
  refine ⟨?_, ?_, ?_, ?_, ?_, ?_⟩
  · simp [onPong]
  · simp [onPong, hsent]
  · simp [heartbeatTick, hack, disconnect, hws, hauto, resetState]
  · simp [heartbeatTick, hack, disconnect, hws, hauto, resetState]
  · cases ct <;>
      simp [heartbeatTick, hack, disconnect, hws, hauto, resetState]
  · simp [heartbeatTick, hack, disconnect, hws, hauto, resetState]

/-- C8 (amended): close-code errors (invalid authentication 4001, superseded
session 4003, abnormal closure 1006 and any other nonzero code) are surfaced
as a warning plus a disconnect notification; a HeartbeatTimeout is surfaced
as a disconnect notification; the ExistingConnection condition and socket
teardown failures are surfaced as error events; only RequestTimeout and a
server-reported error field reject the specific pending call; a
ConnectionTimeout is surfaced as a disconnect notification when a socket
exists — but when it fires with no socket yet (bootstrap in flight) nothing
is surfaced, and a bootstrap error response is re-thrown inside the HTTP
response callback instead of being surfaced. -/
theorem C8_error_surfacing (s1 s2 s3 s4 s5 s6 s7 : ClientState) (e : String)
    (acc refr : Option String) (code : Nat) (err : Option String) (r : ℚ)
    (ct : Bool) (now : Nat) (w : Socket) (opt : ReconnectOpt) (tid eid : Nat)
    (hw2 : s2.ws = some w) (hcode : code ≠ 0)
    (hw3 : s3.ws = some w)
    (hw4 : s4.ws = some w) (hrs : w.readyState ≠ ReadyState.closed)
    (hft : s1.activeTimers.find? (fun te => te.1 = tid) = some (tid, eid))
    (hconn5 : s5.connecting = true) (hw5 : s5.ws = some w)
    (hconn6 : s6.connecting = true) (hw6 : s6.ws = none)
    (hack7 : s7.lastPingAck = false) (hw7 : s7.ws = some w) :
    ((bootstrapEnd s1 (BootstrapBody.parsed (some e) acc refr)).crashed =
        some (JSErr.thrown "Failed to get bot token") ∧
      (bootstrapEnd s1 (BootstrapBody.parsed (some e) acc refr)).events = []) ∧
    (Event.warn "WS close" ∈ (wsCloseEvent s2 code err r false).events ∧
      ∃ m, Event.disconnected m ∈ (wsCloseEvent s2 code err r false).events) ∧
    Event.errorEmitted "ws close failed" ∈ (disconnect s3 opt err r true).events ∧
    Event.errorEmitted "Existing connection detected" ∈ (connect s4).events ∧
    (timerFire s1 tid).2 = [Event.cbError eid ErrReason.timedOut] ∧
    Event.disconnected (some "Connection timeout") ∈
      (connTimeoutFire s5 r ct).events ∧
    ((∀ m, Event.errorEmitted m ∉ (connTimeoutFire s6 r ct).events) ∧
      (∀ m, Event.warn m ∉ (connTimeoutFire s6 r ct).events) ∧
      (∀ m, Event.disconnected m ∉ (connTimeoutFire s6 r ct).events)) ∧
    Event.disconnected
        (some "Server didn't acknowledge previous ping, possible lost connection") ∈
      (heartbeatTick s7 now r ct).events := by
  refine ⟨⟨rfl, rfl⟩, ⟨?_, ?_⟩, ?_, ?_, ?_, ?_, ⟨?_, ?_, ?_⟩, ?_⟩
  · cases hb : s2.opts.autoReconnect <;>
      simp [wsCloseEvent, disconnect, hw2, hcode, hb, resetState]
  · refine ⟨if code = 4001 then some "Invalid authentication."
      else if code = 4003 then some "WebSocket was killed by the server."
      else if code = 1006 then some "Connection timeout. (Ping or network)"
      else err, ?_⟩
    cases hb : s2.opts.autoReconnect <;>
      simp [wsCloseEvent, disconnect, hw2, hcode, hb, resetState]
  · cases opt <;> cases hb : s3.opts.autoReconnect <;>
      simp [disconnect, hw3, hb, resetState, hardResetState]
  · have hcond : w.readyState ≠ ReadyState.closed := hrs
    cases htok : s4.tokenRaw <;>
      simp [connect, hw4, hcond, htok, initWS]
  · simp [timerFire, hft]
  · cases hb : s5.opts.autoReconnect <;> cases ct <;>
      simp [connTimeoutFire, hconn5, disconnect, hw5, hb, resetState]
  · intro m
    cases hb : s6.opts.autoReconnect <;>
      simp [connTimeoutFire, hconn6, disconnect, hw6, hb, resetState]
  · intro m
    cases hb : s6.opts.autoReconnect <;>
      simp [connTimeoutFire, hconn6, disconnect, hw6, hb, resetState]
  · intro m
    cases hb : s6.opts.autoReconnect <;>
      simp [connTimeoutFire, hconn6, disconnect, hw6, hb, resetState]
  · cases hb : s7.opts.autoReconnect <;> cases ct <;>
      simp [heartbeatTick, hack7, disconnect, hw7, hb, resetState]

/-- C1 counterexample: the pending-request entry is not destroyed by a
matching reply — processing the same reply twice invokes the success
continuation twice; a reply carrying both an error field and a success
payload invokes both continuations, not only the error one; and after the
reply the table still holds the registration. -/
theorem C1_counterexample :
    (Event.cbSuccess 0 ∈ (wsEvent oneRegState replyPk).events ∧
      Event.cbSuccess 0 ∈ (wsEvent (wsEvent oneRegState replyPk).state replyPk).events) ∧
    (Event.cbError 1 ErrReason.serverErr ∈ (wsEvent oneRegState bothPk).events ∧
      Event.cbSuccess 0 ∈ (wsEvent oneRegState bothPk).events) ∧
    cbLookup (wsEvent oneRegState replyPk).state.callbacks "r" = some [⟨0, 1, 2⟩] := by
  decide

/-- C3 counterexample: a frame that is both a `MOD_CHANGED` broadcast (whose
`isMod` value matches the mirror, so the handler returns early) and the reply
to pending request `"r"` leaves the pending entry unresolved: no continuation
fires and its timer stays scheduled. -/
theorem C3_counterexample :
    modNoChangePk.ref = some "r" ∧ modNoChangePk.p.isSome = true ∧
    cbLookup modState.callbacks "r" = some [⟨0, 1, 2⟩] ∧
    (wsEvent modState modNoChangePk).earlyReturn = true ∧
    (wsEvent modState modNoChangePk).events = [] ∧
    (wsEvent modState modNoChangePk).state.activeTimers = [(2, 1)] := by
  decide

/-- C4 counterexample: with two registrations sharing correlation id `"r"`,
the firing of the first registration's timer invokes only that registration's
error continuation — the second registration's continuation is not invoked
and its timer is not cancelled. -/
theorem C4_counterexample :
    (timerFire twoRegState 2).2 = [Event.cbError 1 ErrReason.timedOut] ∧
    (5, 4) ∈ (timerFire twoRegState 2).1.activeTimers ∧
    Event.cbError 4 ErrReason.timedOut ∉ (timerFire twoRegState 2).2 := by
  decide

/-- C7: calling `connect()` while an open socket exists emits the
existing-connection error but still falls through: the attempt counter is
bumped and a second WebSocket is constructed, replacing the open one. -/
theorem C7_connect_opens_second_socket :
    (connect openSocketState).events =
      [Event.errorEmitted "Existing connection detected"] ∧
    (connect openSocketState).openedSocket = true ∧
    (connect openSocketState).state.ws = some { readyState := ReadyState.connecting } ∧
    (connect openSocketState).state.connectAttempts =
      openSocketState.connectAttempts + 1 := by
  decide

/-- C8 counterexample: two error kinds are not surfaced as notifications.  A
bootstrap response body carrying an `error` field is re-thrown inside the
HTTP response callback with no error or warning event; and a ConnectionTimeout
firing while the bootstrap exchange is still in flight (no socket yet) emits
no error, warning or disconnect notification at all — `disconnect` skips its
entire notification block when `this.ws` is null, leaving only the reconnect
debug line. -/
theorem C8_counterexample :
    ((bootstrapEnd baseState (BootstrapBody.parsed (some "bad key") none none)).crashed =
        some (JSErr.thrown "Failed to get bot token") ∧
      (bootstrapEnd baseState (BootstrapBody.parsed (some "bad key") none none)).events = []) ∧
    (bootstrapWaitState.connecting = true ∧ bootstrapWaitState.ws = none ∧
      (connTimeoutFire bootstrapWaitState 2 false).events =
        [Event.debug "Queueing reconnect"] ∧
      Event.disconnected (some "Connection timeout") ∉
        (connTimeoutFire bootstrapWaitState 2 false).events) := by
  decide

/-- C9: a `NEW_CREATOR` frame whose `roomId` matches no mirrored room makes
the handler dereference the absent room and throw a TypeError (the mirror is
left unchanged and no event fires only because processing aborts); a
`MSG_DELETED` frame arriving while the client is in no room likewise throws
on the absent `currentRoom`. -/
theorem C9_unguarded_room_handlers :
    (wsEvent baseState newCreatorUnknownPk).crashed = some JSErr.typeError ∧
    (wsEvent baseState newCreatorUnknownPk).events = [] ∧
    (wsEvent baseState newCreatorUnknownPk).state.rooms = baseState.rooms ∧
    (wsEvent baseState msgDeletedPk).crashed = some JSErr.typeError ∧
    (wsEvent baseState msgDeletedPk).events = [] := by
  decide

/-- Witness for C1 at a concrete registration and reply. -/
theorem C1_pending_request_lifecycle_witness :
    cbLookup oneRegState.callbacks "r" = some [⟨0, 1, 2⟩] ∧
    (resolveRef oneRegState replyPk).2 = [Event.cbSuccess 0] ∧
    cbLookup (resolveRef oneRegState replyPk).1.callbacks "r" = some [⟨0, 1, 2⟩] :=
  ⟨by decide,
    by
      have h := (C1_pending_request_lifecycle oneRegState "r" [⟨0, 1, 2⟩]
        replyPk 2 rfl rfl (by decide)).1.1
      exact h.trans (by decide),
    (C1_pending_request_lifecycle oneRegState "r" [⟨0, 1, 2⟩] replyPk 2
      rfl rfl (by decide)).1.2.1⟩

/-- Witness for C2 at a concrete room, delta and user. -/
theorem C2_speaker_change_events_witness :
    (voiceDeltaData.delta.map Prod.fst).Nodup ∧
    roomsGet voiceState'.rooms "B" = some voiceRoom ∧
    (Event.activeSpeakerChange "a" ∈ (wsEvent voiceState' voiceDeltaPk).events ↔
      ∃ obs, ("a", obs) ∈ voiceDeltaData.delta ∧
        ∃ u, findUser voiceRoom.users "a" = some u ∧
          u.voiceState.speaking ≠ obs.speaking) :=
  ⟨by decide, by decide,
    (C2_speaker_change_events voiceState' voiceDeltaPk voiceDeltaData "B"
      voiceRoom "a" rfl rfl rfl (by decide) (by decide)).1⟩

/-- Witness for C3 at a concrete chat broadcast that is also a reply. -/
theorem C3_resolution_independent_witness :
    (handleOp modState chatReplyPk).crashed = none ∧
    (handleOp modState chatReplyPk).earlyReturn = false ∧
    (handleOp modState chatReplyPk).state.callbacks = modState.callbacks :=
  ⟨by decide, by decide,
    (C3_resolution_independent modState chatReplyPk (by decide) (by decide)).1⟩

/-- Witness for C4 at two concrete registrations sharing one id. -/
theorem C4_shared_ref_fanout_witness :
    cbLookup twoRegState.callbacks "r" = some [⟨0, 1, 2⟩, ⟨3, 4, 5⟩] ∧
    twoRegState.activeTimers.find? (fun te => te.1 = 2) = some (2, 1) ∧
    (resolveRef twoRegState replyPk).2 = [Event.cbSuccess 0, Event.cbSuccess 3] ∧
    (timerFire twoRegState 2).2 = [Event.cbError 1 ErrReason.timedOut] :=
  ⟨by decide, by decide,
    by
      have h := (C4_shared_ref_fanout twoRegState "r" [⟨0, 1, 2⟩, ⟨3, 4, 5⟩]
        replyPk 2 1 rfl rfl rfl rfl (by decide) (by decide)).1.1
      exact h.trans (by decide),
    (C4_shared_ref_fanout twoRegState "r" [⟨0, 1, 2⟩, ⟨3, 4, 5⟩] replyPk 2 1
      rfl rfl rfl rfl (by decide) (by decide)).2.1⟩

/-- Witness for C5 at a concrete jitter of 3/2 from the 1000ms floor. -/
theorem C5_reconnect_backoff_witness :
    baseState.opts.autoReconnect = true ∧ (1 : ℚ) ≤ 3 / 2 ∧ (3 / 2 : ℚ) < 3 ∧
    baseState.reconnectInterval ≤ 60000 ∧
    (disconnect baseState ReconnectOpt.auto none (3 / 2) false).scheduled =
      some 1000 ∧
    (wsEvent baseState authReplyPk).state.reconnectInterval = 1000 :=
  ⟨by decide, by norm_num, by norm_num, by decide,
    by
      have h := (C5_reconnect_backoff baseState baseState none (3 / 2) false
        authReplyPk (by decide) (by norm_num) (by norm_num) (by decide) rfl).1
      exact h.trans (by decide),
    (C5_reconnect_backoff baseState baseState none (3 / 2) false authReplyPk
      (by decide) (by norm_num) (by norm_num) (by decide) rfl).2.2.2.2.1⟩

/-- Witness for C6 at a concrete pong and a concrete missed-pong tick. -/
theorem C6_heartbeat_protocol_witness :
    pingedState.lastPingSent = some 3 ∧
    missedPongState.lastPingAck = false ∧
    missedPongState.opts.autoReconnect = true ∧
    (onPong pingedState 5).latency = Latency.ms 2 ∧
    (heartbeatTick missedPongState 5 2 false).scheduled = some 1000 :=
  ⟨rfl, rfl, by decide,
    by
      have h := (C6_heartbeat_protocol pingedState missedPongState 5 3 2 false
        ⟨ReadyState.opened⟩ rfl rfl rfl (by decide)).2.1
      exact h.trans (by decide),
    by
      have h := (C6_heartbeat_protocol pingedState missedPongState 5 3 2 false
        ⟨ReadyState.opened⟩ rfl rfl rfl (by decide)).2.2.2.2.2
      exact h.trans (by decide)⟩

/-- Witness for C8 at a concrete abnormal close, pending timer, and
connection-timeout firings with and without a socket. -/
theorem C8_error_surfacing_witness :
    openSocketState.ws = some ⟨ReadyState.opened⟩ ∧ (1006 : Nat) ≠ 0 ∧
    oneRegState.activeTimers.find? (fun te => te.1 = 2) = some (2, 1) ∧
    connTimeoutSockState.connecting = true ∧ bootstrapWaitState.ws = none ∧
    missedPongState.lastPingAck = false ∧
    Event.errorEmitted "Existing connection detected" ∈
      (connect openSocketState).events ∧
    (timerFire oneRegState 2).2 = [Event.cbError 1 ErrReason.timedOut] ∧
    Event.disconnected (some "Connection timeout") ∈
      (connTimeoutFire connTimeoutSockState 2 false).events ∧
    Event.disconnected (some "Connection timeout") ∉
      (connTimeoutFire bootstrapWaitState 2 false).events :=
  ⟨rfl, by decide, by decide, rfl, rfl, rfl,
    (C8_error_surfacing oneRegState openSocketState openSocketState
      openSocketState connTimeoutSockState bootstrapWaitState missedPongState
      "bad" none none 1006 none 2 false 5 ⟨ReadyState.opened⟩
      ReconnectOpt.auto 2 1 rfl (by decide) rfl rfl (by decide) (by decide)
      rfl rfl rfl rfl rfl rfl).2.2.2.1,
    (C8_error_surfacing oneRegState openSocketState openSocketState
      openSocketState connTimeoutSockState bootstrapWaitState missedPongState
      "bad" none none 1006 none 2 false 5 ⟨ReadyState.opened⟩
      ReconnectOpt.auto 2 1 rfl (by decide) rfl rfl (by decide) (by decide)
      rfl rfl rfl rfl rfl rfl).2.2.2.2.1,
    (C8_error_surfacing oneRegState openSocketState openSocketState
      openSocketState connTimeoutSockState bootstrapWaitState missedPongState
      "bad" none none 1006 none 2 false 5 ⟨ReadyState.opened⟩
      ReconnectOpt.auto 2 1 rfl (by decide) rfl rfl (by decide) (by decide)
      rfl rfl rfl rfl rfl rfl).2.2.2.2.2.1,
    (C8_error_surfacing oneRegState openSocketState openSocketState
      openSocketState connTimeoutSockState bootstrapWaitState missedPongState
      "bad" none none 1006 none 2 false 5 ⟨ReadyState.opened⟩
      ReconnectOpt.auto 2 1 rfl (by decide) rfl rfl (by decide) (by decide)
      rfl rfl rfl rfl rfl rfl).2.2.2.2.2.2.1.2.2 (some "Connection timeout")⟩

/-- C10: when the heartbeat interval callback finds the previous ping
unacknowledged it forces the disconnect (which nulls the socket and schedules
the reconnect), but then falls through to `this.ws.send("ping")` in the same
invocation and throws a TypeError on the nulled socket. -/
theorem C10_ping_send_after_disconnect :
    (heartbeatTick missedPongState 5 2 false).crashed = some JSErr.typeError ∧
    (heartbeatTick missedPongState 5 2 false).state.ws = none ∧
    (heartbeatTick missedPongState 5 2 false).scheduled = some 1000 := by
  decide

end Moonstone
